import Mathlib

/-!
Verification of `src/core/zmq-publisher.ts` (tmux-composer-cli).

The file embeds the publisher's connect/queue/retry lifecycle, the
endpoint-keyed registry, and the event-forwarding listener as pure Lean
functions.  Effectful collaborators (directory creation, the transport's
`connect`/`send`/`close` calls) are modelled by explicit outcome
parameters: a `Bool` (or an oracle `Nat → Bool` indexed by send number)
says whether the corresponding I/O call succeeds.  `console.error`
logging has no effect on program state and is not modelled.  The event
payload type is a type parameter `E` since events are opaque to the
publisher (they are only serialized at the send site).
-/

namespace TmuxComposer

/-- State of one `ZmqEventPublisher` instance: the fields `publisher`
(connection handle, `null` or a handle — modelled as `Option Unit`
since only presence matters), `isConnected`, and `eventQueue`
(JS array used as a FIFO via `push`/`shift`). -/
structure PubState (E : Type) where
  publisher : Option Unit
  isConnected : Bool
  eventQueue : List E
deriving DecidableEq, Repr

/-- Constructor state of `ZmqEventPublisher`: no handle, not connected,
empty queue. -/
def ZmqEventPublisher.init {E : Type} : PubState E :=
  { publisher := none, isConnected := false, eventQueue := [] }

/-- Result of one `publishEvent` call: the new state, the list of events
sent on the wire during the call (in order), how many background
`connect()` attempts were kicked off (fire-and-forget `this.connect().catch`),
and whether the call threw to its caller. -/
structure PubEffect (E : Type) where
  state : PubState E
  sent : List E
  connectsKicked : Nat
  threw : Bool
deriving DecidableEq, Repr

/-- `ZmqEventPublisher.publishEvent(event)`.  `sendOk` is the outcome of
`this.publisher.send(message)` when that call is reached.  Faithful to the
source: if `!this.isConnected || !this.publisher`, push the event and,
if `!this.isConnected`, kick off a background `connect()` whose errors
are caught (`.catch`), then return.  Otherwise serialize and send; a send
failure is caught, logged, and the event pushed back onto the queue.
No path rethrows, so `threw` is always `false`. -/
def publishEvent {E : Type} (s : PubState E) (e : E) (sendOk : Bool) : PubEffect E :=
  if !s.isConnected || s.publisher.isNone then
    { state := { s with eventQueue := s.eventQueue ++ [e] }
      sent := []
      connectsKicked := if !s.isConnected then 1 else 0
      threw := false }
  else if sendOk then
    { state := s, sent := [e], connectsKicked := 0, threw := false }
  else
    { state := { s with eventQueue := s.eventQueue ++ [e] }
      sent := []
      connectsKicked := 0
      threw := false }

/-- The drain loop inside `connect()`:
`while (eventQueue.length > 0) { const event = eventQueue.shift(); if (event) await publishEvent(event) }`.
`oracle i` is the outcome of the `i`-th send attempted during the drain.
`fuel` bounds the number of iterations (the JS loop is unbounded; `none`
means the loop did not finish within `fuel` iterations).  Returns the
state after the loop and the list of events sent, in send order. -/
def drainLoop {E : Type} (oracle : Nat → Bool) :
    Nat → Nat → PubState E → List E → Option (PubState E × List E)
  | 0, _, s, sent => if s.eventQueue.isEmpty then some (s, sent) else none
  | fuel + 1, step, s, sent =>
    match s.eventQueue with
    | [] => some (s, sent)
    | e :: rest =>
      let eff := publishEvent { s with eventQueue := rest } e (oracle step)
      drainLoop oracle fuel (step + 1) eff.state (sent ++ eff.sent)

/-- Where a failing `connect()` fails.  `ensureZmqSocketDirectory()` is
awaited before the handle is created; `this.publisher.connect(socketPath)`
is awaited after `this.publisher = new Publisher()` has been assigned. -/
inductive ConnectOutcome where
  | dirFail
  | connFail
  | ok
deriving DecidableEq, Repr

/-- Result of one `connect()` call: final state, events sent during the
drain, whether the call threw to its caller. -/
structure ConnectResult (E : Type) where
  state : PubState E
  sent : List E
  threw : Bool
deriving DecidableEq, Repr

/-- `ZmqEventPublisher.connect()`.  Returns immediately when already
connected.  Otherwise: on `dirFail` the state is untouched and the error
rethrown; on `connFail` the freshly assigned `this.publisher` handle is
retained (the assignment precedes the failing `await publisher.connect`)
and the error rethrown; on `ok` the settle delay elapses (no state
effect), `isConnected` is set, and the pending queue is drained.  `none`
models the drain loop not terminating within `fuel` iterations. -/
def connect {E : Type} (fuel : Nat) (oracle : Nat → Bool) (out : ConnectOutcome)
    (s : PubState E) : Option (ConnectResult E) :=
  if s.isConnected then some { state := s, sent := [], threw := false }
  else
    match out with
    | .dirFail => some { state := s, sent := [], threw := true }
    | .connFail => some { state := { s with publisher := some () }, sent := [], threw := true }
    | .ok =>
      let s1 : PubState E :=
        { publisher := some (), isConnected := true, eventQueue := s.eventQueue }
      (drainLoop oracle fuel 0 s1 []).map fun r =>
        { state := r.1, sent := r.2, threw := false }

/-- `ZmqEventPublisher.disconnect()`.  If a handle exists, `close()` is
awaited inside try/catch (a close failure is logged and swallowed, so it
has no state effect and needs no outcome parameter), then the handle is
cleared and `isConnected` reset.  With no handle, nothing happens. -/
def disconnect {E : Type} (s : PubState E) : PubState E :=
  if s.publisher.isSome then
    { s with publisher := none, isConnected := false }
  else s

/-- A sequence of `publishEvent` calls folded over a list of events,
accumulating the events sent and the background connects kicked off.
`oracle i` is the send outcome of the call at index `i`. -/
def publishAll {E : Type} (oracle : Nat → Bool) :
    Nat → PubState E → List E → PubState E × List E × Nat
  | _, s, [] => (s, [], 0)
  | i, s, e :: rest =>
    let eff := publishEvent s e (oracle i)
    let r := publishAll oracle (i + 1) eff.state rest
    (r.1, eff.sent ++ r.2.1, eff.connectsKicked + r.2.2)

/-- System state for the fire-and-forget background connects: the
publisher state plus the number of `connect()` attempts started by
`publishEvent` and not yet resolved.  In the source a kicked-off
`connect()` runs up to its first `await` (past the early `isConnected`
check, which sees `false`) and is then in flight until the awaited I/O
resolves. -/
structure SysState (E : Type) where
  pub : PubState E
  inflight : Nat
deriving DecidableEq, Repr

/-- The synchronous part of one `publishEvent` call at system level:
every background `connect()` the call kicks off becomes in flight. -/
def stepPublish {E : Type} (s : SysState E) (e : E) (sendOk : Bool) : SysState E :=
  let eff := publishEvent s.pub e sendOk
  { pub := eff.state, inflight := s.inflight + eff.connectsKicked }

/-- One in-flight background `connect()` resolves with result `r`
(obtained from `connect` in the `Reachable.resolve` rule). -/
def stepResolve {E : Type} (s : SysState E) (r : ConnectResult E) : SysState E :=
  { pub := r.state, inflight := s.inflight - 1 }

/-- States reachable from a fresh publisher by interleaving publish calls
with resolutions of in-flight background connect attempts. -/
inductive Reachable {E : Type} : SysState E → Prop
  | init : Reachable { pub := ZmqEventPublisher.init, inflight := 0 }
  | publish {s : SysState E} (e : E) (sendOk : Bool) :
      Reachable s → Reachable (stepPublish s e sendOk)
  | resolve {s : SysState E} (fuel : Nat) (oracle : Nat → Bool)
      (out : ConnectOutcome) (r : ConnectResult E) :
      Reachable s → 0 < s.inflight →
      connect fuel oracle out s.pub = some r →
      Reachable (stepResolve s r)

/-- Modelled from the spec: `getZmqSocketPath` lives in
`src/core/zmq-socket.ts`, which is not part of the given sources.  The
spec describes it as resolving a configuration with optional named-socket
and explicit-path overrides to a canonical filesystem socket address.
The claims depend only on it being a deterministic function of the
options, which this model is. -/
structure ZmqSocketOptions where
  socketName : Option String := none
  socketPath : Option String := none
deriving DecidableEq, Repr

/-- Modelled from the spec: deterministic endpoint resolution — an
explicit path override wins, otherwise a canonical path derived from the
socket name (or a default name). -/
def getZmqSocketPath (o : ZmqSocketOptions) : String :=
  match o.socketPath with
  | some p => p
  | none =>
    match o.socketName with
    | some n => "/tmp/tmux-composer/" ++ n ++ ".sock"
    | none => "/tmp/tmux-composer/events.sock"

/-- The module-level `publisherInstances` map together with an instance
allocator: each `new ZmqEventPublisher(...)` is identified by a fresh
`Nat` id so that object identity ("the identical instance") is
expressible.  Entries keep JS `Map` insertion order; `nextId` is the next
fresh id. -/
structure Registry (E : Type) where
  instances : List (String × Nat × PubState E)
  nextId : Nat
deriving DecidableEq, Repr

/-- `getZmqPublisher(socketOptions)`: resolve the socket path, return the
registered instance for that path if present, otherwise construct a new
`ZmqEventPublisher`, register it under the path, and return it.  The
returned `Nat` is the instance id. -/
def getZmqPublisher {E : Type} (r : Registry E) (opts : ZmqSocketOptions) :
    Nat × Registry E :=
  let path := getZmqSocketPath opts
  match r.instances.find? (fun ent => ent.1 == path) with
  | some ent => (ent.2.1, r)
  | none =>
    (r.nextId,
     { instances := r.instances ++ [(path, r.nextId, ZmqEventPublisher.init)]
       nextId := r.nextId + 1 })

/-- `shutdownZmqPublisher()`: awaits `disconnect()` on every registered
instance in registry order, then clears the map.  Returns the cleared
registry together with the final states of the previously registered
instances (the instance objects themselves survive the map clear). -/
def shutdownZmqPublisher {E : Type} (r : Registry E) :
    Registry E × List (String × Nat × PubState E) :=
  ({ instances := [], nextId := r.nextId },
   r.instances.map fun ent => (ent.1, ent.2.1, disconnect ent.2.2))

/-- Well-formedness of the registry as maintained by the source: socket
paths are map keys (unique), every registered id was allocated (below
`nextId`), and ids are pairwise distinct. -/
def Registry.WF {E : Type} (r : Registry E) : Prop :=
  (r.instances.map fun ent => ent.1).Nodup ∧
  (∀ ent ∈ r.instances, ent.2.1 < r.nextId) ∧
  (r.instances.map fun ent => ent.2.1).Nodup

/-- The `EventSource` interface. -/
structure EventSource where
  script : String
  sessionId : Option String := none
  sessionName : Option String := none
  socketPath : Option String := none
  pid : Nat
  hostname : String
deriving DecidableEq, Repr

/-- The `options.source` field of `ZmqPublishingOptions`, a
`Partial<EventSource>`; the `pid` and `hostname` members are never read
by `enableZmqPublishing`, which always uses `process.pid` and
`os.hostname()`. -/
structure PartialEventSource where
  script : Option String := none
  sessionId : Option String := none
  sessionName : Option String := none
  socketPath : Option String := none
deriving DecidableEq, Repr

/-- JS `a || b` on an optional string: `undefined`, and the empty string
(falsy), fall through to the default. -/
def jsOrDefault (v : Option String) (d : String) : String :=
  match v with
  | some s => if s = "" then d else s
  | none => d

/-- The `source : EventSource` record built once inside
`enableZmqPublishing` from the options plus `process.pid` and
`os.hostname()` (passed in as parameters). -/
def mkEventSource (src : Option PartialEventSource) (pid : Nat) (hostname : String) :
    EventSource :=
  { script := jsOrDefault (src.bind fun p => p.script) "unknown"
    sessionId := src.bind fun p => p.sessionId
    sessionName := src.bind fun p => p.sessionName
    socketPath := src.bind fun p => p.socketPath
    pid := pid
    hostname := hostname }

/-- A value of an event field.  Events are open-ended JS objects; the
only field the listener touches is `source`, so field values are either
an opaque payload (`raw`) or a stamped `EventSource` (`src`). -/
inductive FieldVal where
  | raw (n : Nat)
  | src (s : EventSource)
deriving DecidableEq, Repr

/-- A JS object as an ordered list of property bindings; a later binding
for the same key overrides an earlier one, which `jsGet` realizes by
searching from the end. -/
def jsGet (o : List (String × FieldVal)) (k : String) : Option FieldVal :=
  (o.reverse.find? fun kv => kv.1 == k).map fun kv => kv.2

/-- The object built by the listener installed by `enableZmqPublishing`:
`const eventWithSource = { ...event, source }` — all of `event`'s
properties, then a `source` binding that overrides any existing one. -/
def eventWithSource (event : List (String × FieldVal)) (source : EventSource) :
    List (String × FieldVal) :=
  event ++ [("source", FieldVal.src source)]

/-! ## Helper lemmas -/

/-- With a usable connection and all sends succeeding, the drain loop
sends exactly the queued events in FIFO order and empties the queue,
within `eventQueue.length` iterations. -/
theorem drainLoop_all_ok {E : Type} (q : List E) :
    ∀ (fuel step : Nat) (sent : List E), q.length ≤ fuel →
    drainLoop (fun _ => true) fuel step (⟨some (), true, q⟩ : PubState E) sent =
      some (⟨some (), true, []⟩, sent ++ q) := by
  induction q with
  | nil =>
    intro fuel step sent _
    cases fuel with
    | zero => simp [drainLoop]
    | succ f => simp [drainLoop]
  | cons e rest ih =>
    intro fuel step sent h
    cases fuel with
    | zero => exact absurd h (by simp)
    | succ f =>
      have hstep : drainLoop (fun _ => true) (f + 1) step
          (⟨some (), true, e :: rest⟩ : PubState E) sent =
          drainLoop (fun _ => true) f (step + 1)
            (⟨some (), true, rest⟩ : PubState E) (sent ++ [e]) := by
        simp [drainLoop, publishEvent]
      rw [hstep, ih f (step + 1) (sent ++ [e]) (by simpa using h)]
      simp

/-- With every send failing, the drain loop on a one-element queue keeps
re-queueing that element and never finishes, whatever the fuel. -/
theorem drainLoop_all_fail {E : Type} (e : E) :
    ∀ (fuel step : Nat) (sent : List E),
    drainLoop (fun _ => false) fuel step (⟨some (), true, [e]⟩ : PubState E) sent = none := by
  intro fuel
  induction fuel with
  | zero => intro step sent; simp [drainLoop]
  | succ f ih =>
    intro step sent
    have hstep : drainLoop (fun _ => false) (f + 1) step
        (⟨some (), true, [e]⟩ : PubState E) sent =
        drainLoop (fun _ => false) f (step + 1)
          (⟨some (), true, [e]⟩ : PubState E) sent := by
      simp [drainLoop, publishEvent]
    rw [hstep, ih]

/-! ## Claim theorems -/

/-- C1: once `connect()` succeeds on an unconnected publisher (with every
send during the drain succeeding), the pending queue is drained in FIFO
order — the events sent are exactly the buffered events in submission
order, the queue ends empty — and an event submitted after the drain
completes is sent strictly after all of them. -/
theorem connect_drains_pending_fifo {E : Type} (s : PubState E) (e : E) (fuel : Nat)
    (h1 : s.isConnected = false) (h2 : s.eventQueue.length ≤ fuel) :
    connect fuel (fun _ => true) .ok s =
      some { state := ⟨some (), true, []⟩, sent := s.eventQueue, threw := false } ∧
    publishEvent (⟨some (), true, []⟩ : PubState E) e true =
      { state := ⟨some (), true, []⟩, sent := [e], connectsKicked := 0, threw := false } := by
  constructor
  · simp [connect, h1, drainLoop_all_ok s.eventQueue fuel 0 [] h2]
  · simp [publishEvent]

/-- C1 witness: two buffered events drain in order, then a fresh event is
sent after the drain. -/
theorem connect_drains_pending_fifo_witness :
    connect 2 (fun _ => true) .ok (⟨none, false, [10, 20]⟩ : PubState Nat) =
      some { state := ⟨some (), true, []⟩, sent := [10, 20], threw := false } ∧
    publishEvent (⟨some (), true, []⟩ : PubState Nat) 30 true =
      { state := ⟨some (), true, []⟩, sent := [30], connectsKicked := 0, threw := false } :=
  connect_drains_pending_fifo ⟨none, false, [10, 20]⟩ 30 2 rfl (by decide)

/-- C2: every `publishEvent` call made while unconnected appends the
event to the tail of the pending queue, sends nothing, and after a
sequence of such calls the queue holds exactly the submitted events in
submission order with the connection state untouched; moreover no
`publishEvent` call ever throws to its caller. -/
theorem publish_while_unconnected_buffers {E : Type} (s : PubState E) (es : List E)
    (oracle : Nat → Bool) (i : Nat) (h : s.isConnected = false) :
    publishAll oracle i s es =
      ({ s with eventQueue := s.eventQueue ++ es }, [], es.length) ∧
    ∀ (t : PubState E) (e : E) (ok : Bool), (publishEvent t e ok).threw = false := by
  constructor
  · induction es generalizing s i with
    | nil => simp [publishAll]
    | cons e rest ih =>
      have hpe : publishEvent s e (oracle i) =
          { state := { s with eventQueue := s.eventQueue ++ [e] }, sent := [],
            connectsKicked := 1, threw := false } := by
        simp [publishEvent, h]
      have hnext : ({ s with eventQueue := s.eventQueue ++ [e] } : PubState E).isConnected
          = false := h
      simp [publishAll, hpe, ih _ (i + 1) hnext, Nat.add_comm]
  · intro t e ok
    unfold publishEvent
    split
    · rfl
    · split <;> rfl

/-- C2 witness: three events published on a fresh publisher end up
buffered in submission order with nothing sent. -/
theorem publish_while_unconnected_buffers_witness :
    publishAll (fun _ => true) 0 (ZmqEventPublisher.init : PubState Nat) [1, 2, 3] =
      (⟨none, false, [1, 2, 3]⟩, [], 3) ∧
    ∀ (t : PubState Nat) (e : Nat) (ok : Bool), (publishEvent t e ok).threw = false :=
  publish_while_unconnected_buffers ZmqEventPublisher.init [1, 2, 3] (fun _ => true) 0 rfl

/-- C3 counterexample: on a fresh publisher (no handle), a `connect()`
failing at the transport `connect` call throws, but leaves
`this.publisher` holding the freshly created handle — the state is not
exactly as it was before the call, refuting "no connection handle is
retained". -/
theorem connect_failure_retains_handle_cex :
    connect 0 (fun _ => true) .connFail (ZmqEventPublisher.init : PubState Nat) =
      some { state := ⟨some (), false, []⟩, sent := [], threw := true } ∧
    (⟨some (), false, []⟩ : PubState Nat).publisher ≠
      (ZmqEventPublisher.init : PubState Nat).publisher := by
  constructor
  · simp [connect, ZmqEventPublisher.init]
  · simp [ZmqEventPublisher.init]

/-- C3 amended: a failing `connect()` propagates the error, leaves the
publisher unconnected and the pending queue unchanged; if the failure
happens during directory setup the state is fully unchanged, but if the
transport connect fails the freshly assigned handle remains in
`publisher`. -/
theorem connect_failure_propagates {E : Type} (s : PubState E) (fuel : Nat)
    (oracle : Nat → Bool) (out : ConnectOutcome)
    (h : s.isConnected = false) (hout : out ≠ .ok) :
    ∃ r : ConnectResult E, connect fuel oracle out s = some r ∧
      r.threw = true ∧ r.state.isConnected = false ∧
      r.state.eventQueue = s.eventQueue ∧ r.sent = [] ∧
      (out = .dirFail → r.state = s) ∧
      (out = .connFail → r.state.publisher = some ()) := by
  cases out with
  | dirFail =>
    exact ⟨{ state := s, sent := [], threw := true }, by simp [connect, h], rfl, h, rfl, rfl,
      fun _ => rfl, by simp⟩
  | connFail =>
    exact ⟨{ state := { s with publisher := some () }, sent := [], threw := true },
      by simp [connect, h], rfl, h, rfl, rfl, by simp, fun _ => rfl⟩
  | ok => exact absurd rfl hout

/-- C3 amended witness: a transport-connect failure on a fresh publisher
with one buffered event. -/
theorem connect_failure_propagates_witness :
    ∃ r : ConnectResult Nat,
      connect 0 (fun _ => true) .connFail (⟨none, false, [7]⟩ : PubState Nat) = some r ∧
      r.threw = true ∧ r.state.isConnected = false ∧
      r.state.eventQueue = (⟨none, false, [7]⟩ : PubState Nat).eventQueue ∧ r.sent = [] ∧
      (ConnectOutcome.connFail = ConnectOutcome.dirFail →
        r.state = (⟨none, false, [7]⟩ : PubState Nat)) ∧
      (ConnectOutcome.connFail = ConnectOutcome.connFail → r.state.publisher = some ()) :=
  connect_failure_propagates ⟨none, false, [7]⟩ 0 (fun _ => true) .connFail rfl (by decide)

/-- C4: a send failure while connected re-queues the event at the tail of
the pending queue, leaves the publisher connected, sends nothing, and
does not throw; a subsequently failing event is queued after it, so
relative order is preserved. -/
theorem send_failure_requeues_at_tail {E : Type} (s : PubState E) (e1 e2 : E)
    (hc : s.isConnected = true) (hp : s.publisher = some ()) :
    publishEvent s e1 false =
      { state := { s with eventQueue := s.eventQueue ++ [e1] }, sent := [],
        connectsKicked := 0, threw := false } ∧
    (publishEvent s e1 false).state.isConnected = true ∧
    (publishEvent (publishEvent s e1 false).state e2 false).state.eventQueue =
      s.eventQueue ++ [e1, e2] := by
  have h1 : publishEvent s e1 false =
      { state := { s with eventQueue := s.eventQueue ++ [e1] }, sent := [],
        connectsKicked := 0, threw := false } := by
    simp [publishEvent, hc, hp]
  refine ⟨h1, ?_, ?_⟩
  · rw [h1]; exact hc
  · rw [h1]
    simp [publishEvent, hc, hp]

/-- C4 witness: two consecutive failing sends on a connected publisher
queue both events at the tail in order. -/
theorem send_failure_requeues_at_tail_witness :
    publishEvent (⟨some (), true, [0]⟩ : PubState Nat) 1 false =
      { state := ⟨some (), true, [0, 1]⟩, sent := [], connectsKicked := 0, threw := false } ∧
    (publishEvent (⟨some (), true, [0]⟩ : PubState Nat) 1 false).state.isConnected = true ∧
    (publishEvent (publishEvent (⟨some (), true, [0]⟩ : PubState Nat) 1 false).state 2
      false).state.eventQueue = [0, 1, 2] :=
  send_failure_requeues_at_tail ⟨some (), true, [0]⟩ 1 2 rfl rfl

/-- C10: the drain loop terminates for every finite pending queue when
every send during the drain succeeds (within `eventQueue.length`
iterations); without that precondition there is no termination
guarantee — with a failing send the re-queued event keeps the queue
nonempty and no amount of fuel finishes the loop. -/
theorem drain_terminates_when_sends_succeed {E : Type} (q : List E) (e : E) (fuel : Nat)
    (h : q.length ≤ fuel) :
    (drainLoop (fun _ => true) fuel 0 (⟨some (), true, q⟩ : PubState E) []).isSome = true ∧
    ∀ f : Nat,
      drainLoop (fun _ => false) f 0 (⟨some (), true, [e]⟩ : PubState E) [] = none := by
  constructor
  · rw [drainLoop_all_ok q fuel 0 [] h]; rfl
  · intro f; exact drainLoop_all_fail e f 0 []

/-- C10 witness: a three-element queue drains with fuel 3 when sends
succeed; a singleton queue with failing sends never drains. -/
theorem drain_terminates_when_sends_succeed_witness :
    (drainLoop (fun _ => true) 3 0 (⟨some (), true, [4, 5, 6]⟩ : PubState Nat) []).isSome
      = true ∧
    ∀ f : Nat,
      drainLoop (fun _ => false) f 0 (⟨some (), true, [9]⟩ : PubState Nat) [] = none :=
  drain_terminates_when_sends_succeed [4, 5, 6] 9 3 (by decide)

/-- C5 counterexample: from a fresh publisher, two `publishEvent` calls
arriving before the first background `connect()` resolves each kick off
a connect attempt, reaching a state with two connection attempts in
flight — refuting "at no reachable state are two connection attempts in
flight". -/
theorem duplicate_inflight_connects_cex :
    ∃ st : SysState Nat, Reachable st ∧ 2 ≤ st.inflight :=
  ⟨stepPublish (stepPublish ⟨ZmqEventPublisher.init, 0⟩ 1 true) 2 true,
   Reachable.publish 2 true (Reachable.publish 1 true Reachable.init),
   by decide⟩

/-- C5 amended: every `publishEvent` call made while unconnected kicks
off a background `connect()` unconditionally — there is no in-flight
guard, so the number of connection attempts in flight always grows by
one, and states with two or more attempts in flight are reachable. -/
theorem publish_unconnected_always_kicks_connect {E : Type} (s : SysState E) (e : E)
    (ok : Bool) (h : s.pub.isConnected = false) :
    (stepPublish s e ok).inflight = s.inflight + 1 := by
  simp [stepPublish, publishEvent, h]

/-- C5 amended witness: a publish on an unconnected publisher that
already has five attempts in flight kicks off a sixth. -/
theorem publish_unconnected_always_kicks_connect_witness :
    (stepPublish (⟨⟨none, false, []⟩, 5⟩ : SysState Nat) 0 true).inflight = 5 + 1 :=
  publish_unconnected_always_kicks_connect ⟨⟨none, false, []⟩, 5⟩ 0 true rfl

/-- C8: the listener installed by `enableZmqPublishing` forwards
`{ ...event, source }`: the `EventSource` record built at registration
time is the value of the forwarded event's `source` field verbatim,
overriding any pre-existing `source` binding, and every other field reads
exactly as on the incoming event. -/
theorem listener_merges_source_verbatim (event : List (String × FieldVal))
    (o : Option PartialEventSource) (p : Nat) (h : String) (k : String)
    (hk : k ≠ "source") :
    jsGet (eventWithSource event (mkEventSource o p h)) "source" =
      some (FieldVal.src (mkEventSource o p h)) ∧
    jsGet (eventWithSource event (mkEventSource o p h)) k = jsGet event k := by
  constructor
  · simp [jsGet, eventWithSource]
  · have hbeq : (("source" : String) == k) = false := beq_eq_false_iff_ne.mpr (Ne.symm hk)
    simp [jsGet, eventWithSource, List.find?_cons, hbeq]

/-- C8 witness: the spec's example Source overrides a pre-existing
`source` field while a `type` field passes through unmodified. -/
theorem listener_merges_source_verbatim_witness :
    jsGet (eventWithSource [("type", FieldVal.raw 1), ("source", FieldVal.raw 2)]
        (mkEventSource (some { script := some "recorder" }) 1234 "h1")) "source" =
      some (FieldVal.src (mkEventSource (some { script := some "recorder" }) 1234 "h1")) ∧
    jsGet (eventWithSource [("type", FieldVal.raw 1), ("source", FieldVal.raw 2)]
        (mkEventSource (some { script := some "recorder" }) 1234 "h1")) "type" =
      jsGet [("type", FieldVal.raw 1), ("source", FieldVal.raw 2)] "type" :=
  listener_merges_source_verbatim [("type", FieldVal.raw 1), ("source", FieldVal.raw 2)]
    (some { script := some "recorder" }) 1234 "h1" "type" (by decide)

/-- C9: `disconnect()` is idempotent (a second call, or a call on a
publisher that never connected, changes nothing), always leaves the
handle cleared and the publisher marked disconnected, and never touches
the pending queue.  The hypothesis is the reachable-state invariant that
`isConnected` implies a handle is present. -/
theorem disconnect_idempotent_frame {E : Type} (s : PubState E)
    (hinv : s.isConnected = true → s.publisher.isSome) :
    disconnect (disconnect s) = disconnect s ∧
    (s.publisher = none → disconnect s = s) ∧
    (disconnect s).publisher = none ∧
    (disconnect s).isConnected = false ∧
    (disconnect s).eventQueue = s.eventQueue := by
  cases hp : s.publisher with
  | none =>
    have hc : s.isConnected = false := by
      cases hcc : s.isConnected
      · rfl
      · have hs := hinv hcc
        rw [hp] at hs
        simp at hs
    refine ⟨?_, ?_, ?_, ?_, ?_⟩ <;> simp [disconnect, hp, hc]
  | some u =>
    refine ⟨?_, ?_, ?_, ?_, ?_⟩ <;> simp [disconnect, hp]

/-- C9 witness: disconnecting a connected publisher with a buffered
event clears the handle and connection flag, keeps the queue, and a
second disconnect changes nothing. -/
theorem disconnect_idempotent_frame_witness :
    disconnect (disconnect (⟨some (), true, [3]⟩ : PubState Nat)) =
      disconnect (⟨some (), true, [3]⟩ : PubState Nat) ∧
    ((⟨some (), true, [3]⟩ : PubState Nat).publisher = none →
      disconnect (⟨some (), true, [3]⟩ : PubState Nat) = ⟨some (), true, [3]⟩) ∧
    (disconnect (⟨some (), true, [3]⟩ : PubState Nat)).publisher = none ∧
    (disconnect (⟨some (), true, [3]⟩ : PubState Nat)).isConnected = false ∧
    (disconnect (⟨some (), true, [3]⟩ : PubState Nat)).eventQueue = [3] :=
  disconnect_idempotent_frame ⟨some (), true, [3]⟩ (fun _ => rfl)

/-- A list followed by one fresh element stays duplicate-free. -/
theorem nodup_append_singleton {α : Type _} (l : List α) (a : α)
    (hl : l.Nodup) (ha : a ∉ l) : (l ++ [a]).Nodup := by
  rw [List.nodup_append]
  exact ⟨hl, List.nodup_singleton a, by simp [List.disjoint_singleton, ha]⟩

/-- A failed registry lookup means no entry carries the looked-up path. -/
theorem find?_path_none_not_mem {E : Type} (l : List (String × Nat × PubState E))
    (path : String) (hf : l.find? (fun ent => ent.1 == path) = none) :
    ∀ ent ∈ l, ent.1 ≠ path := by
  intro ent hm
  have hp := List.find?_eq_none.mp hf ent hm
  simpa using hp

/-- `getZmqPublisher` on a registered path returns the registered
instance and leaves the registry unchanged. -/
theorem getZmqPublisher_eq_of_find_some {E : Type} (r : Registry E) (o : ZmqSocketOptions)
    (ent : String × Nat × PubState E)
    (hf : r.instances.find? (fun ent => ent.1 == getZmqSocketPath o) = some ent) :
    getZmqPublisher r o = (ent.2.1, r) := by
  simp [getZmqPublisher, hf]

/-- `getZmqPublisher` on an unregistered path constructs a fresh
instance and registers it. -/
theorem getZmqPublisher_eq_of_find_none {E : Type} (r : Registry E) (o : ZmqSocketOptions)
    (hf : r.instances.find? (fun ent => ent.1 == getZmqSocketPath o) = none) :
    getZmqPublisher r o =
      (r.nextId,
       ⟨r.instances ++ [(getZmqSocketPath o, r.nextId, ZmqEventPublisher.init)],
        r.nextId + 1⟩) := by
  simp [getZmqPublisher, hf]

/-- `getZmqPublisher` preserves registry well-formedness. -/
theorem getZmqPublisher_WF {E : Type} (r : Registry E) (o : ZmqSocketOptions)
    (h : r.WF) : (getZmqPublisher r o).2.WF := by
  obtain ⟨hkeys, hbound, hids⟩ := h
  cases hf : r.instances.find? (fun ent => ent.1 == getZmqSocketPath o) with
  | some ent =>
    simp only [getZmqPublisher, hf]
    exact ⟨hkeys, hbound, hids⟩
  | none =>
    simp only [getZmqPublisher, hf]
    refine ⟨?_, ?_, ?_⟩
    · rw [List.map_append]
      refine nodup_append_singleton _ _ hkeys ?_
      intro hmem
      obtain ⟨ent, hent, he⟩ := List.mem_map.mp hmem
      exact find?_path_none_not_mem _ _ hf ent hent he
    · intro ent hm
      rcases List.mem_append.mp hm with hold | hnew
      · exact Nat.lt_trans (hbound ent hold) (Nat.lt_succ_self _)
      · rcases List.mem_singleton.mp hnew with rfl
        exact Nat.lt_succ_self _
    · rw [List.map_append]
      refine nodup_append_singleton _ _ hids ?_
      intro hmem
      obtain ⟨ent, hent, he⟩ := List.mem_map.mp hmem
      exact Nat.ne_of_lt (hbound ent hent) he

/-- After a `getZmqPublisher` call, the resolved path is registered and
maps to exactly the returned instance id. -/
theorem getZmqPublisher_find {E : Type} (r : Registry E) (o : ZmqSocketOptions) :
    ∃ st : PubState E,
      (getZmqPublisher r o).2.instances.find?
          (fun ent => ent.1 == getZmqSocketPath o) =
        some (getZmqSocketPath o, (getZmqPublisher r o).1, st) := by
  cases hf : r.instances.find? (fun ent => ent.1 == getZmqSocketPath o) with
  | some ent =>
    have hp : ent.1 = getZmqSocketPath o := by
      have hs := List.find?_some hf
      simpa using hs
    refine ⟨ent.2.2, ?_⟩
    rw [getZmqPublisher_eq_of_find_some r o ent hf]
    rw [hf, ← hp]
  | none =>
    refine ⟨ZmqEventPublisher.init, ?_⟩
    rw [getZmqPublisher_eq_of_find_none r o hf]
    rw [List.find?_append, hf]
    simp

/-- C6: two successive `getZmqPublisher` calls on a well-formed registry
return the identical instance when the configurations resolve to the
same endpoint and distinct instances when they resolve to different
endpoints; afterwards the registry still holds at most one instance per
distinct resolved endpoint (its path keys are duplicate-free). -/
theorem getPublisher_singleton_per_endpoint {E : Type} (r : Registry E)
    (o1 o2 : ZmqSocketOptions) (hWF : r.WF) :
    (getZmqSocketPath o1 = getZmqSocketPath o2 →
      (getZmqPublisher r o1).1 = (getZmqPublisher (getZmqPublisher r o1).2 o2).1) ∧
    (getZmqSocketPath o1 ≠ getZmqSocketPath o2 →
      (getZmqPublisher r o1).1 ≠ (getZmqPublisher (getZmqPublisher r o1).2 o2).1) ∧
    ((getZmqPublisher (getZmqPublisher r o1).2 o2).2.instances.map
      fun ent => ent.1).Nodup := by
  have hWF1 : (getZmqPublisher r o1).2.WF := getZmqPublisher_WF r o1 hWF
  have hWF2 : (getZmqPublisher (getZmqPublisher r o1).2 o2).2.WF :=
    getZmqPublisher_WF _ o2 hWF1
  obtain ⟨st1, hfind1⟩ := getZmqPublisher_find r o1
  have hmem1 : (getZmqSocketPath o1, (getZmqPublisher r o1).1, st1) ∈
      (getZmqPublisher r o1).2.instances := List.mem_of_find?_eq_some hfind1
  refine ⟨?_, ?_, hWF2.1⟩
  · intro heq
    have hfind1' := hfind1
    rw [heq] at hfind1'
    rw [getZmqPublisher_eq_of_find_some _ o2 _ hfind1']
  · intro hne
    cases hf2 : (getZmqPublisher r o1).2.instances.find?
        (fun ent => ent.1 == getZmqSocketPath o2) with
    | some ent =>
      have hkey : ent.1 = getZmqSocketPath o2 := by
        have hs := List.find?_some hf2
        simpa using hs
      have hmem2 : ent ∈ (getZmqPublisher r o1).2.instances :=
        List.mem_of_find?_eq_some hf2
      rw [getZmqPublisher_eq_of_find_some _ o2 ent hf2]
      intro heqid
      have hent_eq := List.inj_on_of_nodup_map hWF1.2.2 hmem1 hmem2 heqid
      apply hne
      rw [← hkey, ← hent_eq]
    | none =>
      rw [getZmqPublisher_eq_of_find_none _ o2 hf2]
      exact Nat.ne_of_lt (hWF1.2.1 _ hmem1)

/-- C6 witness: on a registry holding the publisher for path `/a` under
id 0, requesting `/a` twice returns id 0 both times, while requesting
`/b` after `/a` returns a different id, and keys stay duplicate-free. -/
theorem getPublisher_singleton_per_endpoint_witness :
    (getZmqSocketPath { socketPath := some "/a" } =
        getZmqSocketPath { socketPath := some "/b" } →
      (getZmqPublisher (⟨[("/a", 0, ZmqEventPublisher.init)], 1⟩ : Registry Nat)
          { socketPath := some "/a" }).1 =
        (getZmqPublisher
          (getZmqPublisher (⟨[("/a", 0, ZmqEventPublisher.init)], 1⟩ : Registry Nat)
            { socketPath := some "/a" }).2 { socketPath := some "/b" }).1) ∧
    (getZmqSocketPath { socketPath := some "/a" } ≠
        getZmqSocketPath { socketPath := some "/b" } →
      (getZmqPublisher (⟨[("/a", 0, ZmqEventPublisher.init)], 1⟩ : Registry Nat)
          { socketPath := some "/a" }).1 ≠
        (getZmqPublisher
          (getZmqPublisher (⟨[("/a", 0, ZmqEventPublisher.init)], 1⟩ : Registry Nat)
            { socketPath := some "/a" }).2 { socketPath := some "/b" }).1) ∧
    ((getZmqPublisher
        (getZmqPublisher (⟨[("/a", 0, ZmqEventPublisher.init)], 1⟩ : Registry Nat)
          { socketPath := some "/a" }).2 { socketPath := some "/b" }).2.instances.map
      fun ent => ent.1).Nodup :=
  getPublisher_singleton_per_endpoint ⟨[("/a", 0, ZmqEventPublisher.init)], 1⟩
    { socketPath := some "/a" } { socketPath := some "/b" }
    ⟨by decide, by decide, by decide⟩

/-- C7: `shutdownZmqPublisher` disconnects every registered instance
(each ends with no handle and unconnected) and empties the registry, so
any subsequent `getZmqPublisher` — including for a previously registered
endpoint — constructs a new instance whose id differs from every
previously registered one. -/
theorem shutdown_clears_registry_fresh {E : Type} (r : Registry E) (o : ZmqSocketOptions)
    (hWF : r.WF)
    (hInv : ∀ ent ∈ r.instances, ent.2.2.isConnected = true → ent.2.2.publisher.isSome) :
    (∀ ent ∈ (shutdownZmqPublisher r).2,
        ent.2.2.publisher = none ∧ ent.2.2.isConnected = false) ∧
    (shutdownZmqPublisher r).1.instances = [] ∧
    (getZmqPublisher (shutdownZmqPublisher r).1 o).1 = r.nextId ∧
    ∀ ent ∈ r.instances, (getZmqPublisher (shutdownZmqPublisher r).1 o).1 ≠ ent.2.1 := by
  have hfresh : (getZmqPublisher (shutdownZmqPublisher r).1 o).1 = r.nextId := rfl
  refine ⟨?_, rfl, hfresh, ?_⟩
  · intro ent hm
    obtain ⟨a, ha, hfa⟩ := List.mem_map.mp hm
    rw [← hfa]
    cases hp : a.2.2.publisher with
    | some u => simp [disconnect, hp]
    | none =>
      have hc : a.2.2.isConnected = false := by
        cases hcc : a.2.2.isConnected
        · rfl
        · have hs := hInv a ha hcc
          rw [hp] at hs
          simp at hs
      simp [disconnect, hp, hc]
  · intro ent hm
    rw [hfresh]
    exact (Nat.ne_of_lt (hWF.2.1 ent hm)).symm

/-- C7 witness: shutting down a registry holding one connected publisher
for `/a` disconnects it, clears the registry, and a later request for
`/a` yields a fresh instance with a new id. -/
theorem shutdown_clears_registry_fresh_witness :
    (∀ ent ∈ (shutdownZmqPublisher
        (⟨[("/a", 0, ⟨some (), true, [1]⟩)], 1⟩ : Registry Nat)).2,
        ent.2.2.publisher = none ∧ ent.2.2.isConnected = false) ∧
    (shutdownZmqPublisher
      (⟨[("/a", 0, ⟨some (), true, [1]⟩)], 1⟩ : Registry Nat)).1.instances = [] ∧
    (getZmqPublisher (shutdownZmqPublisher
        (⟨[("/a", 0, ⟨some (), true, [1]⟩)], 1⟩ : Registry Nat)).1
      { socketPath := some "/a" }).1 = 1 ∧
    ∀ ent ∈ (⟨[("/a", 0, ⟨some (), true, [1]⟩)], 1⟩ : Registry Nat).instances,
      (getZmqPublisher (shutdownZmqPublisher
          (⟨[("/a", 0, ⟨some (), true, [1]⟩)], 1⟩ : Registry Nat)).1
        { socketPath := some "/a" }).1 ≠ ent.2.1 :=
  shutdown_clears_registry_fresh ⟨[("/a", 0, ⟨some (), true, [1]⟩)], 1⟩
    { socketPath := some "/a" } ⟨by decide, by decide, by decide⟩ (by decide)

end TmuxComposer
